import Mathlib

/-!
Shallow embedding of the request-tracing pipeline in `src/datadog_helper.rs`
(the "owned" Datadog tracing scheme): trace-identity extraction and
propagation, the mutable span record (`DDSpan`), the field visitor
(`DDSpanUpdator`), the instrumentation hooks (`TracingLayer`), and the
agent export payload.  Machine integers (`u64`, `i64`, `i32`) are modelled
as `Nat`/`Int`; randomness (`rand::thread_rng().gen::<u64>()`) is modelled
by passing the freshly generated value as an explicit parameter; clock
reads (`Utc::now()` in epoch nanoseconds) are modelled as explicit `Nat`
time parameters.
-/

namespace DatadogHelper

/-- Value of the accumulated digits of a decimal literal, most significant
first, exactly as Rust's `from_str_radix` accumulates them
(`acc * 10 + digit`). -/
def digitsVal (cs : List Char) : Nat :=
  cs.foldl (fun a c => a * 10 + (c.toNat - 48)) 0

/-- Model of Rust's `str::parse::<u64>()` (`u64::from_str_radix(s, 10)`):
an optional leading `+`, then at least one ASCII digit, rejecting values
that overflow `u64`. -/
def parseU64 (s : String) : Option Nat :=
  let cs := s.data
  let ds := match cs with
    | c :: rest => if c = '+' then rest else cs
    | [] => []
  if ds.isEmpty then none
  else if ds.all Char.isDigit then
    if digitsVal ds < 2 ^ 64 then some (digitsVal ds) else none
  else none

/-- Model of `http::HeaderValue::to_str`: succeeds iff every byte is
visible ASCII (32–126) or a horizontal tab. -/
def visibleAscii (c : Char) : Bool :=
  (32 ≤ c.toNat && c.toNat < 127) || c.toNat = 9

/-- A header value converted to `&str`, or `None` on invisible bytes. -/
def headerValueToStr (s : String) : Option String :=
  if s.data.all visibleAscii then some s else none

/-- ASCII lowercasing of one character (HTTP header names are ASCII). -/
def lowerChar (c : Char) : Char :=
  if 65 ≤ c.toNat ∧ c.toNat ≤ 90 then Char.ofNat (c.toNat + 32) else c

/-- ASCII lowercasing of a header name. -/
def lowerStr (s : String) : String :=
  ⟨s.data.map lowerChar⟩

/-- Model of `str::starts_with("dd.")`, the namespace guard of every
`DDSpanUpdator` method. -/
def ddPrefixed (key : String) : Bool :=
  "dd.".data.isPrefixOf key.data

/-- Headers are modelled as an association list of name/value pairs.
`HeaderMap` name matching is case-insensitive; the well-known Datadog
names below are lowercase, so lookup lowercases the stored name. -/
def getHeader (hs : List (String × String)) (name : String) : Option String :=
  (hs.find? (fun p => lowerStr p.1 = name)).map (fun p => p.2)

def TRACE_ID_HEADER : String := "x-datadog-trace-id"

def PARENT_ID_HEADER : String := "x-datadog-parent-id"

/-- `TraceId::from_header`: get the `x-datadog-trace-id` header, convert
it to a string, parse it as a decimal `u64`. -/
def traceIdFromHeader (hs : List (String × String)) : Option Nat :=
  ((getHeader hs TRACE_ID_HEADER).bind headerValueToStr).bind parseU64

/-- `ParentSpanId::from_header`: same chain on `x-datadog-parent-id`. -/
def parentIdFromHeader (hs : List (String × String)) : Option Nat :=
  ((getHeader hs PARENT_ID_HEADER).bind headerValueToStr).bind parseU64

/-- The trace identity of one logical request (spec §3 `TraceIdentity`). -/
structure TraceIdentity where
  traceId : Nat
  parentSpanId : Nat
deriving DecidableEq, Repr

/-- Lines 27–28 of `handle_request_with_trace` (the spec's
`extractOrGenerate`):
`TraceId::from_header(..).unwrap_or_else(TraceId::new)` and
`ParentSpanId::from_header(..).unwrap_or_else(ParentSpanId::new)`.
Both `TraceId::new` and `ParentSpanId::new` draw a fresh random `u64`
(`gen_trace_id` / `gen_span_id`); those draws are the parameters
`freshTrace` and `freshParent`. -/
def extractOrGenerate (hs : List (String × String)) (freshTrace freshParent : Nat) :
    TraceIdentity :=
  { traceId := (traceIdFromHeader hs).getD freshTrace
    parentSpanId := (parentIdFromHeader hs).getD freshParent }

/-- Decimal digit characters of `n`, most significant first: the model of
Rust's `u64` `Display` formatting (used by `impl From<u64> for HeaderValue`). -/
def decimalDigits (n : Nat) : List Char :=
  if _h : n < 10 then [Nat.digitChar n]
  else decimalDigits (n / 10) ++ [Nat.digitChar (n % 10)]
decreasing_by exact Nat.div_lt_self (by omega) (by omega)

/-- The decimal rendering of a `u64` as a string. -/
def decimalRepr (n : Nat) : String :=
  ⟨decimalDigits n⟩

/-- The span record shipped to the agent (`DDSpan`).  `error` is an `i32`
in the source, modelled as `Int`; `meta`/`metrics` are `HashMap`s,
modelled as association lists with replace-or-append insertion.  The
program never inserts into `metrics` (the visitor has no `record_f64`
override), so its `f64` values are modelled by a placeholder `Nat`. -/
structure DDSpan where
  name : String
  trace_id : Nat
  parent_id : Nat
  span_id : Nat
  start : Nat
  duration : Nat
  service : String
  resource : String
  error : Int
  meta : List (String × String)
  metrics : List (String × Nat)
  type : String
deriving DecidableEq, Repr

/-- `impl Default for DDSpan`. -/
def DDSpan.default : DDSpan where
  name := ""
  trace_id := 0
  parent_id := 0
  span_id := 0
  start := 0
  duration := 0
  service := ""
  resource := ""
  error := 0
  meta := []
  metrics := []
  type := ""

/-- `HashMap::insert`: replace the value if the key is present, otherwise
add the entry. -/
def metaInsert (m : List (String × String)) (k v : String) : List (String × String) :=
  if m.any (fun p => p.1 = k) then m.map (fun p => if p.1 = k then (k, v) else p)
  else m ++ [(k, v)]

/-- Lookup in the `meta` map. -/
def metaLookup (m : List (String × String)) (k : String) : Option String :=
  (m.find? (fun p => p.1 = k)).map (fun p => p.2)

/-- `DDSpan::set_start_once` at clock reading `now`. -/
def DDSpan.set_start_once (s : DDSpan) (now : Nat) : DDSpan :=
  if s.start = 0 then { s with start := now } else s

/-- `DDSpan::update_end` at clock reading `now` (`duration = now - start`;
`u64` subtraction, modelled by truncated `Nat` subtraction — the source
would panic in debug builds if the clock ran backwards past `start`). -/
def DDSpan.update_end (s : DDSpan) (now : Nat) : DDSpan :=
  { s with duration := now - s.start }

/-- A typed attribute value as dispatched by the `tracing` crate to the
`Visit` trait: `i64`, `u64`, `bool` and `&str` reach the four overridden
methods; everything else (including `f64`, whose default impl forwards)
reaches `record_debug`, modelled by `debug`. -/
inductive AttrValue where
  | i64 : Int → AttrValue
  | u64 : Nat → AttrValue
  | bool : Bool → AttrValue
  | str : String → AttrValue
  | debug : String → AttrValue
deriving DecidableEq, Repr

/-- One visit of `DDSpanUpdator` (`impl tracing::field::Visit`): the
updated span together with the warnings emitted (only `record_debug`
warns, and only for keys inside the `dd.` namespace). -/
def applyField (s : DDSpan) (key : String) (v : AttrValue) : DDSpan × List String :=
  match v with
  | .i64 n =>
    if !(ddPrefixed key) then (s, [])
    else if key = "dd.meta.http.status_code" then
      ({ s with meta := metaInsert s.meta "http.status_code" (toString n) }, [])
    else (s, [])
  | .u64 n =>
    if !(ddPrefixed key) then (s, [])
    else if key = "dd.trace_id" then ({ s with trace_id := n }, [])
    else if key = "dd.parent_id" then ({ s with parent_id := n }, [])
    else (s, [])
  | .bool b =>
    if !(ddPrefixed key) then (s, [])
    else if key = "dd.error" then ({ s with error := if b then 1 else 0 }, [])
    else (s, [])
  | .str t =>
    if !(ddPrefixed key) then (s, [])
    else if key = "dd.resource" then ({ s with resource := t }, [])
    else if key = "dd.meta.request_id" then
      ({ s with meta := metaInsert s.meta "request_id" t }, [])
    else if key = "dd.meta.error.msg" then
      ({ s with meta := metaInsert s.meta "error.msg" t }, [])
    else if key = "dd.meta.span.kind" then
      ({ s with meta := metaInsert s.meta "span.kind" t }, [])
    else if key = "dd.meta.http.url" then
      ({ s with meta := metaInsert s.meta "http.url" t }, [])
    else if key = "dd.meta.http.method" then
      ({ s with meta := metaInsert s.meta "http.method" t }, [])
    else (s, [])
  | .debug _ =>
    if !(ddPrefixed key) then (s, [])
    else (s, [key ++ " is not yet implemented"])

/-- Fold a list of attribute key/value pairs through the visitor
(`Attributes::record` / `Record::record` / `Event::record`), keeping the
span state. -/
def applyFields (s : DDSpan) (kvs : List (String × AttrValue)) : DDSpan :=
  kvs.foldl (fun a kv => (applyField a kv.1 kv.2).1) s

/-- `TracingLayer::on_new_span` before `attrs.record(&mut updator)`: the
fresh `DDSpan` built from the parent span's stored record if one exists
(`span.parent().and_then(|s| ...get_mut::<DDSpan>()...)`), otherwise a
newly drawn random trace id (`TraceId::new().0`, the parameter
`freshTrace`) and `parent_id = 0`; `span_id` is the framework-supplied
`id.into_u64()`. -/
def newSpanBase (name : String) (parent : Option DDSpan) (freshTrace fwId : Nat) : DDSpan :=
  let ids := match parent with
    | some p => (p.trace_id, p.span_id)
    | none => (freshTrace, 0)
  { DDSpan.default with
      name := name, trace_id := ids.1, parent_id := ids.2, span_id := fwId }

/-- `TracingLayer::on_new_span` in full: build the base record, then apply
the creation-time attributes through the visitor. -/
def on_new_span (name : String) (parent : Option DDSpan) (freshTrace fwId : Nat)
    (attrs : List (String × AttrValue)) : DDSpan :=
  applyFields (newSpanBase name parent freshTrace fwId) attrs

/-- A scheduling event of one span: it becomes the active unit of work at
time `t` (`on_enter`) or stops being active at time `t` (`on_exit`). -/
inductive SpanTimeEvent where
  | enter : Nat → SpanTimeEvent
  | leave : Nat → SpanTimeEvent
deriving DecidableEq, Repr

/-- Run a sequence of enter/exit hook invocations over a span record:
`on_enter` calls `set_start_once`, `on_exit` calls `update_end`. -/
def processTimeEvents (s : DDSpan) (es : List SpanTimeEvent) : DDSpan :=
  es.foldl
    (fun a e => match e with
      | .enter t => a.set_start_once t
      | .leave t => a.update_end t)
    s

/-- `TracingLayer::with_dd_span`: run the mutation on the stored `DDSpan`
extension when it exists (`extensions_mut().get_mut::<DDSpan>().map(f)`),
otherwise do nothing. -/
def with_dd_span (ext : Option DDSpan) (f : DDSpan → DDSpan) : Option DDSpan :=
  ext.map f

/-- `TracingLayer::on_record` acting on the stored extension of the span. -/
def on_record (ext : Option DDSpan) (vals : List (String × AttrValue)) : Option DDSpan :=
  with_dd_span ext (fun ds => applyFields ds vals)

/-- `TracingLayer::on_event` routed to the event's span, when stored. -/
def on_event (ext : Option DDSpan) (vals : List (String × AttrValue)) : Option DDSpan :=
  with_dd_span ext (fun ds => applyFields ds vals)

/-- `TracingLayer::on_enter` at clock reading `now`. -/
def on_enter (ext : Option DDSpan) (now : Nat) : Option DDSpan :=
  with_dd_span ext (fun ds => ds.set_start_once now)

/-- `TracingLayer::on_exit` at clock reading `now`. -/
def on_exit (ext : Option DDSpan) (now : Nat) : Option DDSpan :=
  with_dd_span ext (fun ds => ds.update_end now)

/-- JSON values, as produced by `serde_json` for `DDSpan` (object fields
in declaration order). -/
inductive Json where
  | str : String → Json
  | num : Nat → Json
  | int : Int → Json
  | arr : List Json → Json
  | obj : List (String × Json) → Json

/-- The top-level keys of a JSON object. -/
def Json.topKeys : Json → List String
  | .obj l => l.map (fun p => p.1)
  | _ => []

/-- `serde_json::to_string(&span)` modelled structurally: the serialized
object with fields in declaration order, where
`#[serde(skip_serializing_if = "DDSpan::is_zero")]` omits `parent_id`
exactly when it is zero. -/
def DDSpan.toJson (s : DDSpan) : Json :=
  .obj ([("name", .str s.name), ("trace_id", .num s.trace_id)]
    ++ (if s.parent_id = 0 then [] else [("parent_id", .num s.parent_id)])
    ++ [("span_id", .num s.span_id), ("start", .num s.start),
        ("duration", .num s.duration), ("service", .str s.service),
        ("resource", .str s.resource), ("error", .int s.error),
        ("meta", .obj (s.meta.map (fun p => (p.1, .str p.2)))),
        ("metrics", .obj (s.metrics.map (fun p => (p.1, .num p.2)))),
        ("type", .str s.type)])

/-- The outbound HTTP POST assembled by `send_to_datadog_agent`. -/
structure AgentRequest where
  endpoint : String
  contentType : String
  body : Json

/-- `TracingLayer::send_to_datadog_agent`: set the configured service
name on the span, serialize it, and wrap the one serialized span in
`format!("[[{}]]", json)` — a JSON array holding a single one-span trace
array — posted with `Content-Type: application/json`. -/
def send_to_datadog_agent (service_name : String) (span : DDSpan) : AgentRequest :=
  let s := { span with service := service_name }
  { endpoint := "http://localhost:8126/v0.3/traces"
    contentType := "application/json"
    body := .arr [.arr [s.toJson]] }

/-- `TracingLayer::on_close` acting on the stored extension: when a record
is stored, it is exported; otherwise nothing is sent. -/
def on_close (service_name : String) (ext : Option DDSpan) : Option AgentRequest :=
  ext.map (fun ds => send_to_datadog_agent service_name ds)

/-- `HeaderMap::insert`: the new value replaces any existing value under
the (case-insensitively equal) name. -/
def headerInsert (hs : List (String × String)) (name v : String) :
    List (String × String) :=
  (name, v) :: hs.filter (fun p => lowerStr p.1 ≠ lowerStr name)

/-- Lines 95–98 of `request_http` (the spec's `injectIntoOutboundHeaders`):
insert the current trace id and the client span's own id into the outbound
headers, both rendered in decimal by `impl From<u64> for HeaderValue`. -/
def injectIntoOutboundHeaders (traceId spanId : Nat) (hs : List (String × String)) :
    List (String × String) :=
  headerInsert (headerInsert hs TRACE_ID_HEADER (decimalRepr traceId))
    PARENT_ID_HEADER (decimalRepr spanId)

/-- The inbound lambda request, as consumed by `handle_request_with_trace`:
its headers, the API-Gateway-V1 request context's optional `path`, and the
lambda context's `request_id`. -/
structure ApiGwRequest where
  headers : List (String × String)
  path : Option String
  requestId : String
deriving DecidableEq, Repr

/-- `handle_request_with_trace`: extract or generate the trace identity,
read `rest_api_ctx.path.unwrap()` — a panic, modelled as `none`, when the
API-Gateway context carries no path — then create the root span with its
creation-time attributes, run the wrapped handler, and mirror its outcome
into the span.  The handler's `u16` status is dispatched by the `tracing`
crate to `Visit::record_u64` (`impl Value for u16` records as `u64`), so
the status-code record arrives at the visitor as a `u64` value.  Random
draws and the framework span id are explicit parameters.  Returns the
handler outcome paired with the final root span record. -/
def handle_request_with_trace (req : ApiGwRequest)
    (freshTrace freshParent freshRootTrace fwSpanId : Nat)
    (handler : ApiGwRequest → Except String Nat) :
    Option (Except String Nat × DDSpan) :=
  let identity := extractOrGenerate req.headers freshTrace freshParent
  match req.path with
  | none => none
  | some path =>
    let attrs : List (String × AttrValue) :=
      [("dd.trace_id", .u64 identity.traceId),
       ("dd.parent_id", .u64 identity.parentSpanId),
       ("dd.resource", .str path),
       ("dd.error", .bool false),
       ("dd.meta.span.kind", .str "server"),
       ("dd.meta.request_id", .str req.requestId)]
    let span := on_new_span "handle_request_root" none freshRootTrace fwSpanId attrs
    match handler req with
    | .ok status =>
      let span := (applyField span "dd.meta.http.status_code" (.u64 status)).1
      let span :=
        if 500 ≤ status then (applyField span "dd.error" (.bool true)).1 else span
      some (.ok status, span)
    | .error msg =>
      let span := (applyField span "dd.error" (.bool true)).1
      let span := (applyField span "dd.meta.error.msg" (.str msg)).1
      some (.error msg, span)

/-- Unfolding lemma for `applyFields` on a cons cell. -/
theorem applyFields_cons (s : DDSpan) (kv : String × AttrValue)
    (kvs : List (String × AttrValue)) :
    applyFields s (kv :: kvs) = applyFields (applyField s kv.1 kv.2).1 kvs :=
  rfl

/-- C1 counterexample: with the trace-id header present as `42` but the
parent-id header absent, and the random draws being `7` and `5`, the code
keeps the decoded trace id `42` (it does not generate a fresh one) and
falls back to the random span id `5` — not to a parent-span id of zero as
the claim states. -/
theorem extract_parent_fallback_not_zero :
    extractOrGenerate [("x-datadog-trace-id", "42")] 7 5 =
      { traceId := 42, parentSpanId := 5 } ∧
    (extractOrGenerate [("x-datadog-trace-id", "42")] 7 5).parentSpanId ≠ 0 ∧
    (extractOrGenerate [("x-datadog-trace-id", "42")] 7 5).traceId ≠ 7 := by
  decide

/-- C1 (amended): the two propagation headers are extracted independently;
when both parse as decimal `u64`, the identity equals the decoded values;
a missing or unparseable trace-id header falls back to a freshly drawn
random trace id, and a missing or unparseable parent-id header falls back
to a freshly drawn random span id (not zero).  The operation is total. -/
theorem extractOrGenerate_amended (hs : List (String × String)) (fT fP : Nat) :
    (∀ t p, traceIdFromHeader hs = some t → parentIdFromHeader hs = some p →
      extractOrGenerate hs fT fP = { traceId := t, parentSpanId := p }) ∧
    (traceIdFromHeader hs = none → (extractOrGenerate hs fT fP).traceId = fT) ∧
    (parentIdFromHeader hs = none → (extractOrGenerate hs fT fP).parentSpanId = fP) := by
  refine ⟨?_, ?_, ?_⟩ <;> intros <;> simp_all [extractOrGenerate]

/-- C1 witness: headers carrying `42` and `7` decode to exactly that
identity, whatever the random draws. -/
theorem extractOrGenerate_amended_witness :
    extractOrGenerate [("x-datadog-trace-id", "42"), ("x-datadog-parent-id", "7")] 1 2 =
      { traceId := 42, parentSpanId := 7 } :=
  (extractOrGenerate_amended _ 1 2).1 42 7 (by decide) (by decide)

/-- C5: a span created while the enclosing span has a stored record
inherits that record's trace id and takes the parent's own span id as its
`parent_id`; with no such record, the freshly minted trace id is used and
`parent_id` is zero — all before creation-time attributes are applied. -/
theorem new_span_inherits_parent_ids (name : String) (parent : Option DDSpan)
    (freshTrace fwId : Nat) :
    (newSpanBase name parent freshTrace fwId).trace_id =
      (match parent with | some p => p.trace_id | none => freshTrace) ∧
    (newSpanBase name parent freshTrace fwId).parent_id =
      (match parent with | some p => p.span_id | none => 0) ∧
    (newSpanBase name parent freshTrace fwId).span_id = fwId := by
  cases parent <;> simp [newSpanBase]

/-- C6: an attribute whose key lies outside the recognized `dd.`
namespace leaves the span record entirely unchanged and emits no warning,
whatever the value's type — including debug-formatted values. -/
theorem unrecognized_key_noop (s : DDSpan) (key : String) (v : AttrValue)
    (h : ddPrefixed key = false) :
    applyField s key v = (s, []) := by
  cases v <;> simp [applyField, h]

/-- C6 witness: the unprefixed key `http.status_code` with a string value
is a no-op on the default record. -/
theorem unrecognized_key_noop_witness :
    applyField DDSpan.default "http.status_code" (.str "200") = (DDSpan.default, []) :=
  unrecognized_key_noop _ _ _ (by decide)

/-- C7: every hook invoked for a span id whose stored record is missing
is a no-op — field updates, events, enter, exit all return the absent
state unchanged, and close sends nothing to the agent. -/
theorem missing_record_hooks_noop (vals : List (String × AttrValue)) (now : Nat)
    (svc : String) :
    on_record none vals = none ∧ on_event none vals = none ∧
    on_enter none now = none ∧ on_exit none now = none ∧
    on_close svc none = none :=
  ⟨rfl, rfl, rfl, rfl, rfl⟩

/-- One visitor step cannot clear an error flag of 1 unless it is the
explicit record of `dd.error = false`. -/
theorem applyField_error_preserved (s : DDSpan) (key : String) (v : AttrValue)
    (h : s.error = 1) (hv : ¬(key = "dd.error" ∧ v = AttrValue.bool false)) :
    ((applyField s key v).1).error = 1 := by
  cases v <;> simp only [applyField] <;> split_ifs <;> simp_all

/-- C3 counterexample: a visitor update recording `dd.error = false`
resets an error flag that had become 1 back to 0 (`error` is assigned
`i32::from(value)` on every `dd.error` record). -/
theorem error_flag_cleared_by_false_record :
    ({ DDSpan.default with error := 1 } : DDSpan).error = 1 ∧
    ((applyField { DDSpan.default with error := 1 } "dd.error" (.bool false)).1).error = 0 := by
  decide

/-- C3 (amended): once the error flag is 1, no sequence of field updates
or events that does not itself record `dd.error = false` ever clears it;
the library's own request/outbound paths only record `dd.error = true`
after creation, so the flag is sticky there. -/
theorem error_flag_sticky_without_false_record (s : DDSpan)
    (kvs : List (String × AttrValue)) (h : s.error = 1)
    (hv : ∀ kv ∈ kvs, ¬(kv.1 = "dd.error" ∧ kv.2 = AttrValue.bool false)) :
    (applyFields s kvs).error = 1 := by
  induction kvs generalizing s with
  | nil => simpa [applyFields] using h
  | cons kv rest ih =>
    rw [applyFields_cons]
    exact ih _ (applyField_error_preserved s kv.1 kv.2 h (hv kv (by simp)))
      (fun kv2 hm => hv kv2 (by simp [hm]))

/-- C3 witness: after an error flag of 1, updating a meta field and
re-recording `dd.error = true` leave the flag at 1. -/
theorem error_flag_sticky_witness :
    (applyFields { DDSpan.default with error := 1 }
      [("dd.meta.request_id", .str "x"), ("dd.error", .bool true)]).error = 1 :=
  error_flag_sticky_without_false_record _ _ (by decide) (by decide)

/-- A decimal digit character rendered by `Nat.digitChar` is an ASCII
digit. -/
theorem digitChar_isDigit (d : Nat) (h : d < 10) : (Nat.digitChar d).isDigit = true := by
  interval_cases d <;> decide

/-- The code point of a rendered decimal digit. -/
theorem digitChar_toNat (d : Nat) (h : d < 10) : (Nat.digitChar d).toNat = 48 + d := by
  interval_cases d <;> decide

/-- A rendered decimal digit is visible ASCII. -/
theorem digitChar_visibleAscii (d : Nat) (h : d < 10) :
    visibleAscii (Nat.digitChar d) = true := by
  interval_cases d <;> decide

/-- The decimal rendering of a number is never empty. -/
theorem decimalDigits_ne_nil (n : Nat) : decimalDigits n ≠ [] := by
  rw [decimalDigits]
  split <;> simp

/-- Every character of a decimal rendering is an ASCII digit. -/
theorem decimalDigits_all_digit (n : Nat) : ∀ c ∈ decimalDigits n, c.isDigit = true := by
  induction n using Nat.strong_induction_on with
  | _ n ih =>
    rw [decimalDigits]
    split
    next h =>
      intro c hc
      simp only [List.mem_singleton] at hc
      subst hc
      exact digitChar_isDigit n h
    next h =>
      intro c hc
      rw [List.mem_append] at hc
      rcases hc with hc | hc
      · exact ih (n / 10) (Nat.div_lt_self (by omega) (by omega)) c hc
      · simp only [List.mem_singleton] at hc
        subst hc
        exact digitChar_isDigit _ (Nat.mod_lt _ (by omega))

/-- Every character of a decimal rendering is visible ASCII. -/
theorem decimalDigits_all_visible (n : Nat) :
    ∀ c ∈ decimalDigits n, visibleAscii c = true := by
  induction n using Nat.strong_induction_on with
  | _ n ih =>
    rw [decimalDigits]
    split
    next h =>
      intro c hc
      simp only [List.mem_singleton] at hc
      subst hc
      exact digitChar_visibleAscii n h
    next h =>
      intro c hc
      rw [List.mem_append] at hc
      rcases hc with hc | hc
      · exact ih (n / 10) (Nat.div_lt_self (by omega) (by omega)) c hc
      · simp only [List.mem_singleton] at hc
        subst hc
        exact digitChar_visibleAscii _ (Nat.mod_lt _ (by omega))

/-- Appending one digit multiplies the accumulated value by ten. -/
theorem digitsVal_append (a : List Char) (c : Char) :
    digitsVal (a ++ [c]) = digitsVal a * 10 + (c.toNat - 48) := by
  simp [digitsVal, List.foldl_append]

/-- Parsing the digits of a decimal rendering recovers the number. -/
theorem digitsVal_decimalDigits (n : Nat) : digitsVal (decimalDigits n) = n := by
  induction n using Nat.strong_induction_on with
  | _ n ih =>
    rw [decimalDigits]
    split
    next h =>
      simp [digitsVal, digitChar_toNat n h]
    next h =>
      rw [digitsVal_append, ih (n / 10) (Nat.div_lt_self (by omega) (by omega)),
        digitChar_toNat _ (Nat.mod_lt _ (by omega))]
      omega

/-- Round trip: the decimal rendering of any `u64` parses back to it. -/
theorem parseU64_decimalRepr (n : Nat) (h : n < 2 ^ 64) :
    parseU64 (decimalRepr n) = some n := by
  have hne := decimalDigits_ne_nil n
  have hall := decimalDigits_all_digit n
  have hval := digitsVal_decimalDigits n
  rcases hcs : decimalDigits n with _ | ⟨c, rest⟩
  · exact absurd hcs hne
  · have hc : c.isDigit = true := hall c (by rw [hcs]; exact List.mem_cons_self c rest)
    have hplus : ¬ c = '+' := by
      intro he
      rw [he] at hc
      exact absurd hc (by decide)
    have hdata : (decimalRepr n).data = c :: rest := by
      simp [decimalRepr, hcs]
    rw [parseU64, hdata]
    simp only [hplus, if_false]
    have hallb : (c :: rest).all Char.isDigit = true := by
      rw [List.all_eq_true]
      intro x hx
      exact hall x (by rw [hcs]; exact hx)
    rw [hcs] at hval
    simp [hallb, hval]
    simpa using h

/-- A decimal rendering survives `HeaderValue::to_str` unchanged. -/
theorem headerValueToStr_decimalRepr (n : Nat) :
    headerValueToStr (decimalRepr n) = some (decimalRepr n) := by
  rw [headerValueToStr]
  have : (decimalRepr n).data.all visibleAscii = true := by
    rw [List.all_eq_true]
    intro c hc
    exact decimalDigits_all_visible n c hc
  simp [this]

/-- C8: after `request_http` injects the stored trace id `T` and the
client span's id `S` into the outbound headers, the two well-known names
carry exactly their decimal encodings, and an instrumented downstream
service extracting them recovers `T` and `S`. -/
theorem inject_headers_carry_identity (T S : Nat) (hs : List (String × String))
    (hT : T < 2 ^ 64) (hS : S < 2 ^ 64) :
    getHeader (injectIntoOutboundHeaders T S hs) TRACE_ID_HEADER = some (decimalRepr T) ∧
    getHeader (injectIntoOutboundHeaders T S hs) PARENT_ID_HEADER = some (decimalRepr S) ∧
    traceIdFromHeader (injectIntoOutboundHeaders T S hs) = some T ∧
    parentIdFromHeader (injectIntoOutboundHeaders T S hs) = some S := by
  have hT' : getHeader (injectIntoOutboundHeaders T S hs) TRACE_ID_HEADER =
      some (decimalRepr T) := by
    simp +decide [injectIntoOutboundHeaders, headerInsert, getHeader, List.find?_cons,
      List.filter_cons]
  have hS' : getHeader (injectIntoOutboundHeaders T S hs) PARENT_ID_HEADER =
      some (decimalRepr S) := by
    simp +decide [injectIntoOutboundHeaders, headerInsert, getHeader, List.find?_cons,
      List.filter_cons]
  refine ⟨hT', hS', ?_, ?_⟩
  · rw [traceIdFromHeader, hT']
    simp [headerValueToStr_decimalRepr, parseU64_decimalRepr T hT]
  · rw [parentIdFromHeader, hS']
    simp [headerValueToStr_decimalRepr, parseU64_decimalRepr S hS]

/-- C8 witness: the spec's scenario — trace id 42 and span id 99 are
carried as `x-datadog-trace-id: 42` and `x-datadog-parent-id: 99`. -/
theorem inject_headers_witness :
    getHeader (injectIntoOutboundHeaders 42 99 []) TRACE_ID_HEADER = some (decimalRepr 42) ∧
    getHeader (injectIntoOutboundHeaders 42 99 []) PARENT_ID_HEADER = some (decimalRepr 99) ∧
    traceIdFromHeader (injectIntoOutboundHeaders 42 99 []) = some 42 ∧
    parentIdFromHeader (injectIntoOutboundHeaders 42 99 []) = some 99 :=
  inject_headers_carry_identity 42 99 [] (by norm_num) (by norm_num)

/-- C9: the export POST carries `Content-Type: application/json`, its body
is a JSON array holding exactly one array of span objects (the single
closing span, with the configured service name applied), and the
serialized object has a `parent_id` key exactly when `parent_id` is
nonzero. -/
theorem export_payload_shape (svc : String) (s : DDSpan) :
    (send_to_datadog_agent svc s).contentType = "application/json" ∧
    (send_to_datadog_agent svc s).body =
      Json.arr [Json.arr [DDSpan.toJson { s with service := svc }]] ∧
    (("parent_id" ∈ (DDSpan.toJson { s with service := svc }).topKeys) ↔
      s.parent_id ≠ 0) := by
  refine ⟨rfl, rfl, ?_⟩
  by_cases hp : s.parent_id = 0 <;>
    simp [DDSpan.toJson, Json.topKeys, hp]

/-- C10: a request whose API-Gateway-V1 context carries no path makes
`handle_request_with_trace` panic on `rest_api_ctx.path.unwrap()` —
modelled as `none` — before the wrapped handler contributes anything to
the outcome, for every handler. -/
theorem missing_path_panics (req : ApiGwRequest) (h : req.path = none)
    (freshTrace freshParent freshRootTrace fwSpanId : Nat)
    (f : ApiGwRequest → Except String Nat) :
    handle_request_with_trace req freshTrace freshParent freshRootTrace fwSpanId f =
      none := by
  simp [handle_request_with_trace, h]

/-- C10 witness: the concrete pathless request panics whatever the handler
would have returned. -/
theorem missing_path_panics_witness :
    handle_request_with_trace { headers := [], path := none, requestId := "r" } 1 2 3 4
      (fun _ => Except.ok 200) = none :=
  missing_path_panics _ rfl 1 2 3 4 _

/-- C4: evaluation of the full request path at concrete inputs.  The
handler's status is recorded as a `u16`, which the `tracing` crate
dispatches to `Visit::record_u64`; the visitor's `record_u64` has no arm
for `dd.meta.http.status_code` (only `record_i64` does), so the status
code never reaches the span's `meta` map — for a 200 response and for a
503 response alike — while the error flag still becomes 1 exactly on the
5xx response. -/
theorem status_code_never_reaches_meta :
    (handle_request_with_trace { headers := [], path := some "/hello", requestId := "rid" }
        1 2 3 4 (fun _ => Except.ok 200)).map
      (fun o => (metaLookup o.2.meta "http.status_code", o.2.error)) =
      some (none, 0) ∧
    (handle_request_with_trace { headers := [], path := some "/hello", requestId := "rid" }
        1 2 3 4 (fun _ => Except.ok 503)).map
      (fun o => (metaLookup o.2.meta "http.status_code", o.2.error)) =
      some (none, 1) := by
  decide

/-- Unfolding lemma for `processTimeEvents` on a cons cell. -/
theorem processTimeEvents_cons (s : DDSpan) (e : SpanTimeEvent) (es : List SpanTimeEvent) :
    processTimeEvents s (e :: es) =
      processTimeEvents
        (match e with | .enter t => s.set_start_once t | .leave t => s.update_end t) es :=
  rfl

/-- `processTimeEvents` distributes over list append. -/
theorem processTimeEvents_append (s : DDSpan) (a b : List SpanTimeEvent) :
    processTimeEvents s (a ++ b) = processTimeEvents (processTimeEvents s a) b := by
  simp [processTimeEvents, List.foldl_append]

/-- Once `start` is nonzero, no later enter or exit changes it
(`set_start_once` is idempotent and `update_end` only writes `duration`). -/
theorem processTimeEvents_start_of_ne_zero (s : DDSpan) (es : List SpanTimeEvent)
    (h : s.start ≠ 0) : (processTimeEvents s es).start = s.start := by
  induction es generalizing s with
  | nil => rfl
  | cons e rest ih =>
    cases e with
    | enter t =>
      have hu : processTimeEvents s (SpanTimeEvent.enter t :: rest) =
          processTimeEvents (s.set_start_once t) rest := rfl
      rw [hu, DDSpan.set_start_once, if_neg h]
      exact ih s h
    | leave t =>
      have hu : processTimeEvents s (SpanTimeEvent.leave t :: rest) =
          processTimeEvents (s.update_end t) rest := rfl
      rw [hu]
      exact ih _ h

/-- The interleaved enter/exit events of a list of activity intervals. -/
def intervalEvents (ts : List (Nat × Nat)) : List SpanTimeEvent :=
  ts.flatMap (fun p => [SpanTimeEvent.enter p.1, SpanTimeEvent.leave p.2])

/-- With `start` already fixed at a nonzero value, processing any nonempty
run of enter/exit intervals leaves `duration = last exit - start`. -/
theorem processTimeEvents_duration_last (ts : List (Nat × Nat)) (s : DDSpan)
    (h : s.start ≠ 0) (hne : ts ≠ []) :
    (processTimeEvents s (intervalEvents ts)).duration =
      (ts.getLast hne).2 - s.start := by
  induction ts generalizing s with
  | nil => exact absurd rfl hne
  | cons p rest ih =>
    rw [show intervalEvents (p :: rest) =
        [SpanTimeEvent.enter p.1, SpanTimeEvent.leave p.2] ++ intervalEvents rest from rfl,
      processTimeEvents_append]
    have hstep : processTimeEvents s [SpanTimeEvent.enter p.1, SpanTimeEvent.leave p.2] =
        { s with duration := p.2 - s.start } := by
      have hu : processTimeEvents s [SpanTimeEvent.enter p.1, SpanTimeEvent.leave p.2] =
          processTimeEvents (s.set_start_once p.1) [SpanTimeEvent.leave p.2] := rfl
      rw [hu, DDSpan.set_start_once, if_neg h]
      rfl
    rw [hstep]
    rcases rest with _ | ⟨q, qs⟩
    · simp [intervalEvents, processTimeEvents, List.getLast]
    · have hrne : q :: qs ≠ [] := by simp
      rw [List.getLast_cons hrne]
      exact ih { s with duration := p.2 - s.start } h hrne

/-- C2: a span entered and exited `N ≥ 1` times before close (intervals
`ts`, the first entry at a nonzero clock reading) ends with `start` equal
to the first enter time and `duration` equal to the clock at the *last*
exit minus `start` — `duration` is recomputed as `now - start` on every
exit, so the last exit wins; it is not the sum of the interval lengths. -/
theorem duration_reflects_last_exit (ts : List (Nat × Nat)) (hne : ts ≠ [])
    (h1 : 0 < (ts.head hne).1) :
    (processTimeEvents DDSpan.default (intervalEvents ts)).start = (ts.head hne).1 ∧
    (processTimeEvents DDSpan.default (intervalEvents ts)).duration =
      (ts.getLast hne).2 - (ts.head hne).1 := by
  rcases ts with _ | ⟨p, rest⟩
  · exact absurd rfl hne
  · have hp1 : p.1 ≠ 0 := by
      simp only [List.head_cons] at h1
      omega
    have hs2 : processTimeEvents DDSpan.default
        [SpanTimeEvent.enter p.1, SpanTimeEvent.leave p.2] =
        { DDSpan.default with start := p.1, duration := p.2 - p.1 } := rfl
    have key : processTimeEvents DDSpan.default (intervalEvents (p :: rest)) =
        processTimeEvents { DDSpan.default with start := p.1, duration := p.2 - p.1 }
          (intervalEvents rest) := by
      rw [show intervalEvents (p :: rest) =
          [SpanTimeEvent.enter p.1, SpanTimeEvent.leave p.2] ++ intervalEvents rest
          from rfl,
        processTimeEvents_append, hs2]
    rw [key]
    simp only [List.head_cons]
    constructor
    · exact processTimeEvents_start_of_ne_zero _ _ hp1
    · rcases rest with _ | ⟨q, qs⟩
      · simp [intervalEvents, processTimeEvents, List.getLast]
      · have hrne : q :: qs ≠ [] := by simp
        rw [List.getLast_cons hrne]
        exact processTimeEvents_duration_last (q :: qs) _ hp1 hrne

/-- C2 witness: two activity intervals (10,25) then (30,45): `start`
stays 10 and the exported duration is 45 − 10 = 35, the last exit minus
the start — not 30, the sum of the two interval lengths. -/
theorem duration_reflects_last_exit_witness :
    (processTimeEvents DDSpan.default (intervalEvents [(10, 25), (30, 45)])).start = 10 ∧
    (processTimeEvents DDSpan.default (intervalEvents [(10, 25), (30, 45)])).duration =
      45 - 10 ∧
    45 - 10 ≠ (25 - 10) + (45 - 30) := by
  have h := duration_reflects_last_exit [(10, 25), (30, 45)] (by simp) (by simp)
  exact ⟨h.1, by simpa using h.2, by norm_num⟩

end DatadogHelper
